import Mathlib

set_option maxRecDepth 8192

/-!
Verification of the prompt-construction and conversation-context-assembly
core of the Programming Joke Bot (src/app.py), shallowly embedded in Lean.

The embedding follows the Python source: `build_system_messages`,
`build_message_context`, `call_openai_chat` with its surrounding
try/except fallback, `render_chat_history`, and the session-state
reset and chat-input handler.
-/

namespace JokeBot

/-- The role tag of one conversational entry (`system | user | assistant`). -/
inductive Role where
  | system
  | user
  | assistant
deriving DecidableEq, Repr

/-- One conversational entry: a role together with its text
(a Python dict `\x7b"role": ..., "content": ...\x7d` in the source). -/
structure Turn where
  role : Role
  content : String
deriving DecidableEq, Repr

instance : Inhabited Turn := ⟨⟨Role.system, ""⟩⟩

/-- The `base_rules` list of `build_system_messages` (src/app.py lines 23-32),
verbatim. -/
def base_rules : List String :=
  [ "You tell short, witty jokes about programming, software engineering, and computer science.",
    "Keep jokes light, friendly, and suitable for a professional environment (PG-13).",
    "Avoid offensive content, stereotypes, harassment, or targeting protected classes.",
    "No sexual content, graphic violence, or hateful language.",
    "Prefer inclusive humor and gentle self-deprecation over insults.",
    "If asked for non-programming jokes, gracefully pivot back to programming humor.",
    "If the user requests something unsafe, refuse briefly and offer a safe, related programming joke.",
    "Aim for 1–3 sentences per joke unless the user asks for more." ]

/-- The directive mapped to the "Surprise me" style (src/app.py line 35).
It is also the fallback used by `style_rules.get(style, style_rules["Surprise me"])`. -/
def surprise_directive : String :=
  "Use any clean programming-humor style that fits the user\x27s request."

/-- The `style_rules` dict of `build_system_messages` (src/app.py lines 34-41),
as a partial map from style name to directive text. -/
def style_rules (style : String) : Option String :=
  if style = "Surprise me" then some surprise_directive
  else if style = "One-liner" then some "Prefer concise one-liners with a quick punchline."
  else if style = "Dad joke" then some "Prefer wholesome, punny dad-joke style humor."
  else if style = "Setup and punchline" then
    some "Use a short setup followed by a clear punchline on a new line."
  else if style = "Puns" then some "Favor wordplay and puns related to programming terms."
  else if style = "Explain after" then
    some "Tell the joke first, then add a brief one-sentence explanation."
  else none

/-- The `lang_note` expression (src/app.py line 43): in Python,
`f"Respond in \x7blanguage\x7d." if language and language != "English" else
"Respond in English."`; a non-empty string is truthy. -/
def lang_note (language : String) : String :=
  if language ≠ "" ∧ language ≠ "English" then "Respond in " ++ language ++ "."
  else "Respond in English."

/-- The text of the composite (second) system turn built by
`build_system_messages` (src/app.py lines 49-54): persona line, the joined
`base_rules`, the resolved style directive, and the language note. -/
def composite_content (style language : String) : String :=
  "You are a programming joke assistant.\n"
    ++ " ".intercalate base_rules
    ++ "\nPreferred style: "
    ++ (style_rules style).getD surprise_directive
    ++ "\n"
    ++ lang_note language

/-- `build_system_messages` (src/app.py lines 19-57): emits the generic
"helpful assistant" preamble turn and the composite instruction turn. -/
def build_system_messages (style language : String) : List Turn :=
  [ ⟨Role.system, "You are a helpful assistant."⟩,
    ⟨Role.system, composite_content style language⟩ ]

/-- `build_message_context` (src/app.py lines 83-89): concatenates the system
messages, the prior history, and a new trailing user turn. The Python code
copies both input lists (`list(system_msgs) + list(history)`) and appends the
user dict to the fresh `combined` list. -/
def build_message_context (system_msgs history : List Turn) (user_text : String) : List Turn :=
  (system_msgs ++ history) ++ [⟨Role.user, user_text⟩]

/-- A message of one completion choice of the external API response. -/
structure ChatMessage where
  content : String
deriving DecidableEq, Repr

/-- One completion choice of the external API response. -/
structure Choice where
  message : ChatMessage
deriving DecidableEq, Repr

/-- The response object returned by the external completion API on success. -/
structure ChatResponse where
  choices : List Choice
deriving DecidableEq, Repr

/-- The outcome of the external `client.chat.completions.create` call:
either a raised failure (network, auth, rate limit, timeout, ...; the payload
string carries the detail) or a response object. -/
def ApiOutcome : Type := Except String ChatResponse

/-- `call_openai_chat` (src/app.py lines 60-70): delegates to the external
capability and extracts `response.choices[0].message.content`. A raised
failure propagates; indexing an empty `choices` list raises as well
(Python `IndexError`). -/
def call_openai_chat (outcome : ApiOutcome) : Except String String :=
  match outcome with
  | Except.error e => Except.error e
  | Except.ok r =>
    match r.choices.head? with
    | some c => Except.ok c.message.content
    | none => Except.error "IndexError: list index out of range"

/-- The fixed user-facing fallback string of the chat-input handler
(src/app.py line 163). -/
def fallbackText : String :=
  "Sorry, I ran into an error while trying to fetch a joke. Please try again."

/-- The try/except around `call_openai_chat` (src/app.py lines 155-163):
the assistant text is the extracted reply on success and the fixed fallback
string on any failure. -/
def generateReply (outcome : ApiOutcome) : String :=
  match call_openai_chat outcome with
  | Except.ok t => t
  | Except.error _ => fallbackText

/-- The chat-input handler (src/app.py lines 145-168): append the user turn
to history, build the message context from the history before that turn
(`st.session_state.history[:-1]`), obtain the assistant text via the
try/except around `call_openai_chat`, and append the assistant turn. -/
def processUserPrompt (style language : String) (hist : List Turn) (prompt : String)
    (outcome : ApiOutcome) : List Turn :=
  let hist1 := hist ++ [⟨Role.user, prompt⟩]
  let system_messages := build_system_messages style language
  let _all_messages := build_message_context system_messages hist1.dropLast prompt
  let assistant_text := generateReply outcome
  hist1 ++ [⟨Role.assistant, assistant_text⟩]

/-- The session-state initialization/reset (src/app.py lines 117-118):
`if "history" not in st.session_state or clear: st.session_state.history = []`. -/
def resetHistoryStep (historyPresent clear : Bool) (hist : List Turn) : List Turn :=
  if !historyPresent || clear then [] else hist

/-- `render_chat_history` (src/app.py lines 73-80): the sequence of turns
actually rendered, i.e. those whose role is `user` or `assistant`. -/
def render_chat_history (history : List Turn) : List Turn :=
  history.filter (fun t => decide (t.role = Role.user ∨ t.role = Role.assistant))

/-- String containment: `sub` occurs contiguously inside `s`. -/
def strContains (s sub : String) : Prop :=
  ∃ a b : String, s = a ++ sub ++ b

/-- String suffix: `s` ends with `suf`. -/
def strEndsWith (s suf : String) : Prop :=
  ∃ a : String, s = a ++ suf

/-- The enumerated humor styles offered by the settings selectbox
(src/app.py line 100). -/
def jokeStyles : List String :=
  ["Surprise me", "One-liner", "Dad joke", "Setup and punchline", "Puns", "Explain after"]

/-- A store of Python list objects, for stating the frame property of
`build_message_context`: each cell is one list value, addressed by index. -/
abbrev PyStore : Type := List (List Turn)

/-- `build_message_context` (src/app.py lines 83-89) at the level of list
objects: `list(system_msgs) + list(history)` allocates a fresh list built
from copies of the cells at `s` and `h`, and `combined.append(...)` mutates
only that fresh cell. Returns the updated store and the fresh cell's index. -/
def build_message_context_ref (σ : PyStore) (s h : Nat) (user_text : String) :
    PyStore × Nat :=
  let combined := σ.getD s [] ++ σ.getD h []
  let combined := combined ++ [⟨Role.user, user_text⟩]
  (σ ++ [combined], σ.length)

end JokeBot

namespace JokeBot

/-! ## Helper lemmas shared by several results -/

/-- The composite system turn is the second element of `build_system_messages`. -/
theorem second_turn_content (style language : String) :
    ((build_system_messages style language).getD 1 default).content
      = composite_content style language := rfl

/-- Decomposition of the composite content around the style directive. -/
theorem composite_content_decomp (style language : String) :
    composite_content style language
      = ("You are a programming joke assistant.\n" ++ " ".intercalate base_rules
            ++ "\nPreferred style: ")
          ++ (style_rules style).getD surprise_directive
          ++ ("\n" ++ lang_note language) := by
  simp [composite_content, String.append_assoc]

/-- The resolved style directive occurs inside the composite content. -/
theorem strContains_getD (style language : String) :
    strContains (composite_content style language)
      ((style_rules style).getD surprise_directive) :=
  ⟨"You are a programming joke assistant.\n" ++ " ".intercalate base_rules
      ++ "\nPreferred style: ",
    "\n" ++ lang_note language,
    by rw [composite_content_decomp]⟩

/-- The composite content ends with the language note. -/
theorem composite_endsWith (style language : String) :
    strEndsWith (composite_content style language) (lang_note language) :=
  ⟨"You are a programming joke assistant.\n" ++ " ".intercalate base_rules
      ++ "\nPreferred style: " ++ (style_rules style).getD surprise_directive ++ "\n",
    by simp [composite_content, String.append_assoc]⟩

/-! ## Claim theorems -/

/-- C1: `build_message_context sysTurns hist t` has length
`sysTurns.length + hist.length + 1`; its first `sysTurns.length` elements are
`sysTurns` unchanged and in order, the next `hist.length` elements are `hist`
unchanged and in order, and its last element is the user turn carrying `t`.
No element is reordered, dropped, or deduplicated. -/
theorem C1_assemble_shape (system_msgs history : List Turn) (user_text : String) :
    (build_message_context system_msgs history user_text).length
        = system_msgs.length + history.length + 1 ∧
    (build_message_context system_msgs history user_text).take system_msgs.length
        = system_msgs ∧
    ((build_message_context system_msgs history user_text).drop system_msgs.length).take
        history.length = history ∧
    (build_message_context system_msgs history user_text).getLast?
        = some ⟨Role.user, user_text⟩ := by
  refine ⟨?_, ?_, ?_, ?_⟩ <;> simp [build_message_context, Nat.add_assoc]

/-- C2: when the external completion call fails in any way, `generateReply`
is the exact fallback string, and the chat-input handler appends exactly that
string to history as the assistant turn; no failure detail reaches the caller. -/
theorem C2_failure_fallback (style language : String) (hist : List Turn) (prompt : String)
    (outcome : ApiOutcome) (e : String)
    (h : call_openai_chat outcome = Except.error e) :
    generateReply outcome = fallbackText ∧
    processUserPrompt style language hist prompt outcome
      = hist ++ [⟨Role.user, prompt⟩, ⟨Role.assistant, fallbackText⟩] := by
  have hg : generateReply outcome = fallbackText := by
    unfold generateReply
    rw [h]
  exact ⟨hg, by simp [processUserPrompt, hg]⟩

/-- Witness for C2 at a concrete raised failure. -/
theorem C2_failure_fallback_witness :
    generateReply (Except.error "connection timed out" : ApiOutcome) = fallbackText ∧
    processUserPrompt "Surprise me" "English" [] "tell me a joke"
        (Except.error "connection timed out" : ApiOutcome)
      = [⟨Role.user, "tell me a joke"⟩, ⟨Role.assistant, fallbackText⟩] := by
  have h := C2_failure_fallback "Surprise me" "English" [] "tell me a joke"
    (Except.error "connection timed out" : ApiOutcome) "connection timed out" rfl
  simpa using h

end JokeBot

namespace JokeBot

/-- C3: for every style in the enumerated set, `build_system_messages style "English"`
returns exactly 2 system-role turns; the second turn's text contains the literal
directive mapped to that style and ends with "Respond in English.". -/
theorem C3_enumerated_styles (style : String) (h : style ∈ jokeStyles) :
    (build_system_messages style "English").length = 2 ∧
    (∀ t ∈ build_system_messages style "English", t.role = Role.system) ∧
    (∃ d, style_rules style = some d ∧
      strContains ((build_system_messages style "English").getD 1 default).content d) ∧
    strEndsWith ((build_system_messages style "English").getD 1 default).content
      "Respond in English." := by
  refine ⟨rfl, ?_, ?_, ?_⟩
  · intro t ht
    simp only [build_system_messages, List.mem_cons, List.not_mem_nil, or_false] at ht
    rcases ht with rfl | rfl <;> rfl
  · have hc := strContains_getD style "English"
    rw [second_turn_content]
    simp only [jokeStyles, List.mem_cons, List.not_mem_nil, or_false] at h
    rcases h with rfl | rfl | rfl | rfl | rfl | rfl <;>
      exact ⟨_, rfl, hc⟩
  · have he := composite_endsWith style "English"
    rw [second_turn_content]
    exact he

/-- Witness for C3 at the concrete style "Dad joke". -/
theorem C3_enumerated_styles_witness :
    (build_system_messages "Dad joke" "English").length = 2 ∧
    (∀ t ∈ build_system_messages "Dad joke" "English", t.role = Role.system) ∧
    (∃ d, style_rules "Dad joke" = some d ∧
      strContains ((build_system_messages "Dad joke" "English").getD 1 default).content d) ∧
    strEndsWith ((build_system_messages "Dad joke" "English").getD 1 default).content
      "Respond in English." :=
  C3_enumerated_styles "Dad joke" (by simp [jokeStyles])

/-- C4: for a style absent from the mapping, the composite system turn uses the
"Surprise me" directive verbatim, and the operation still yields its two turns
(it never fails). -/
theorem C4_unknown_style_default (style language : String) (h : style_rules style = none) :
    (build_system_messages style language).length = 2 ∧
    strContains ((build_system_messages style language).getD 1 default).content
      surprise_directive := by
  refine ⟨rfl, ?_⟩
  have hc := strContains_getD style language
  rw [h] at hc
  rw [second_turn_content]
  simpa using hc

/-- Witness for C4 at the unknown style "Limerick". -/
theorem C4_unknown_style_default_witness :
    (build_system_messages "Limerick" "English").length = 2 ∧
    strContains ((build_system_messages "Limerick" "English").getD 1 default).content
      surprise_directive :=
  C4_unknown_style_default "Limerick" "English" rfl

/-- C5: for a non-empty language other than "English" the composite system turn
ends with "Respond in \x7blanguage\x7d."; for the language "English" or the empty
language it ends with "Respond in English.". -/
theorem C5_language_note (language : String) :
    (language ≠ "" → language ≠ "English" →
      ∀ style, strEndsWith ((build_system_messages style language).getD 1 default).content
        ("Respond in " ++ language ++ ".")) ∧
    ((language = "" ∨ language = "English") →
      ∀ style, strEndsWith ((build_system_messages style language).getD 1 default).content
        "Respond in English.") := by
  constructor
  · intro h1 h2 style
    have he := composite_endsWith style language
    rw [second_turn_content]
    unfold lang_note at he
    rwa [if_pos ⟨h1, h2⟩] at he
  · intro hd style
    have he := composite_endsWith style language
    rw [second_turn_content]
    rcases hd with rfl | rfl
    · exact he
    · exact he

/-- Witness for C5 at the concrete language "French". -/
theorem C5_language_note_witness :
    strEndsWith ((build_system_messages "Puns" "French").getD 1 default).content
      ("Respond in " ++ "French" ++ ".") :=
  (C5_language_note "French").1 (by decide) (by decide) "Puns"

/-- C6: `build_system_messages` is deterministic: two calls with identical
`(style, language)` inputs return identical ordered turn sequences. -/
theorem C6_deterministic (style language style2 language2 : String)
    (hs : style = style2) (hl : language = language2) :
    build_system_messages style language = build_system_messages style2 language2 := by
  rw [hs, hl]

/-- Witness for C6 at a concrete repeated input. -/
theorem C6_deterministic_witness :
    build_system_messages "One-liner" "Spanish" = build_system_messages "One-liner" "Spanish" :=
  C6_deterministic "One-liner" "Spanish" "One-liner" "Spanish" rfl rfl

/-- C7: for style "One-liner", language "English", empty history, and user text
"tell me one about recursion", the assembled sequence has exactly 3 turns: the
generic preamble, the composite turn containing "Prefer concise one-liners",
and the user turn carrying the given text. -/
theorem C7_scenario_one_liner :
    (build_message_context (build_system_messages "One-liner" "English") []
        "tell me one about recursion").length = 3 ∧
    (build_message_context (build_system_messages "One-liner" "English") []
        "tell me one about recursion").getD 0 default
      = ⟨Role.system, "You are a helpful assistant."⟩ ∧
    strContains ((build_message_context (build_system_messages "One-liner" "English") []
        "tell me one about recursion").getD 1 default).content
      "Prefer concise one-liners" ∧
    (build_message_context (build_system_messages "One-liner" "English") []
        "tell me one about recursion").getD 2 default
      = ⟨Role.user, "tell me one about recursion"⟩ := by
  refine ⟨rfl, rfl, ?_, rfl⟩
  show strContains (composite_content "One-liner" "English") "Prefer concise one-liners"
  exact ⟨"You are a programming joke assistant.\n" ++ " ".intercalate base_rules
      ++ "\nPreferred style: ",
    " with a quick punchline." ++ ("\n" ++ lang_note "English"),
    by rw [composite_content_decomp]; decide⟩

end JokeBot

namespace JokeBot

/-- C8: the chat-input handler only appends: it extends the history by exactly
one user turn and then one assistant turn (the reply on success, the fallback
otherwise), leaving every earlier entry unchanged; the reset action makes the
history empty regardless of prior content, and rendering an empty history
displays an empty transcript. -/
theorem C8_history_append_only (style language : String) (hist : List Turn) (prompt : String)
    (outcome : ApiOutcome) (historyPresent : Bool) :
    processUserPrompt style language hist prompt outcome
      = hist ++ [⟨Role.user, prompt⟩, ⟨Role.assistant, generateReply outcome⟩] ∧
    (processUserPrompt style language hist prompt outcome).take hist.length = hist ∧
    resetHistoryStep historyPresent true hist = [] ∧
    render_chat_history ([] : List Turn) = [] := by
  refine ⟨?_, ?_, ?_, rfl⟩
  · simp [processUserPrompt]
  · simp [processUserPrompt]
  · simp [resetHistoryStep]

/-- C9: `build_message_context` does not mutate its arguments: in the
object-store model, every cell that existed before the call — in particular
the system-messages cell and the history cell — holds the same list value
afterwards, and only a fresh cell holds the combined sequence. -/
theorem C9_no_mutation (σ : PyStore) (s h : Nat) (user_text : String) (i : Nat)
    (hi : i < σ.length) :
    ((build_message_context_ref σ s h user_text).1)[i]? = σ[i]? ∧
    ((build_message_context_ref σ s h user_text).1)[(build_message_context_ref σ s h user_text).2]?
      = some (build_message_context (σ.getD s []) (σ.getD h []) user_text) := by
  constructor
  · simp [build_message_context_ref, List.getElem?_append, hi]
  · simp [build_message_context_ref, build_message_context]

/-- Witness for C9 at a concrete two-cell store. -/
theorem C9_no_mutation_witness :
    ((build_message_context_ref [[⟨Role.system, "sys"⟩], [⟨Role.user, "hi"⟩]] 0 1 "again").1)[0]?
      = some [⟨Role.system, "sys"⟩] ∧
    ((build_message_context_ref [[⟨Role.system, "sys"⟩], [⟨Role.user, "hi"⟩]] 0 1 "again").1)[
        (build_message_context_ref [[⟨Role.system, "sys"⟩], [⟨Role.user, "hi"⟩]] 0 1 "again").2]?
      = some (build_message_context [⟨Role.system, "sys"⟩] [⟨Role.user, "hi"⟩] "again") := by
  have h := C9_no_mutation [[⟨Role.system, "sys"⟩], [⟨Role.user, "hi"⟩]] 0 1 "again" 0
    (by decide)
  simpa using h

/-- C10: an unknown style is indistinguishable from "Surprise me": for every
style absent from the mapping and every language, `build_system_messages`
returns the same turns as for "Surprise me". -/
theorem C10_unknown_equals_surprise (style language : String)
    (h : style_rules style = none) :
    build_system_messages style language
      = build_system_messages "Surprise me" language := by
  have h2 : style_rules "Surprise me" = some surprise_directive := rfl
  simp [build_system_messages, composite_content, h, h2]

/-- Witness for C10 at the unknown style "Knock-knock" with language "Spanish". -/
theorem C10_unknown_equals_surprise_witness :
    build_system_messages "Knock-knock" "Spanish"
      = build_system_messages "Surprise me" "Spanish" :=
  C10_unknown_equals_surprise "Knock-knock" "Spanish" rfl

end JokeBot
